import Mathlib

set_option autoImplicit false

/-!
Verification development for the `Deployer` class of `src/deployer.ts`
(terrariums).  The JavaScript runtime values that flow through the log
extraction code are modelled by the inductive type `Js`; thrown JS errors by
`JsErr`.  The external ledger client (signing, broadcast, inclusion waiting)
and the filesystem are modelled as an explicit environment `Env`; calls made
to the ledger client are recorded in a `CallTrace`.  The reference store
(`src/refs.ts`) and the block-inclusion waiter (`src/utils.ts`) are not part
of the analysed sources and are modelled from the spec where needed.
-/

/-- A JavaScript runtime value, as needed by the log-extraction code paths:
`JSON.parse` results are arrays/objects/strings/numbers, and `undefined`
appears as the result of failed lookups. -/
inductive Js where
  | undefined
  | null
  | bool (b : Bool)
  | num (n : Int)
  | str (s : String)
  | arr (elems : List Js)
  | obj (fields : List (String × Js))

/-- A thrown JavaScript error, distinguished by its constructor kind the same
way `e instanceof SyntaxError` does in `deployer.ts`. -/
inductive JsErr where
  | syntaxError (message : String)
  | typeError (message : String)
  | error (message : String)

/-- Display of a JS error as produced by template interpolation such as
the source's `Unexpcted Error: ${e}`. -/
def jsErrDisplay : JsErr → String
  | .syntaxError m => "SyntaxError: " ++ m
  | .typeError m => "TypeError: " ++ m
  | .error m => "Error: " ++ m

/-- JS property access `v.k`: throws a TypeError on `undefined`/`null`,
returns the field (or `undefined`) on objects, and `undefined` on other
primitives. -/
def Js.getProp : Js → String → Except JsErr Js
  | .undefined, k => .error (.typeError ("Cannot read properties of undefined (reading " ++ k ++ ")"))
  | .null, k => .error (.typeError ("Cannot read properties of null (reading " ++ k ++ ")"))
  | .obj fields, k => .ok ((fields.lookup k).getD .undefined)
  | _, _ => .ok .undefined

/-- JS index access `v[i]` (the source only uses `[0]`): throws a TypeError on
`undefined`/`null`, indexes arrays and strings, looks up the stringified index
on objects, and gives `undefined` otherwise. -/
def Js.index : Js → Nat → Except JsErr Js
  | .undefined, _ => .error (.typeError "Cannot read properties of undefined (reading 0)")
  | .null, _ => .error (.typeError "Cannot read properties of null (reading 0)")
  | .arr xs, i => .ok ((xs.get? i).getD .undefined)
  | .obj fields, i => .ok ((fields.lookup (toString i)).getD .undefined)
  | .str s, i => .ok (((s.toList.get? i).map (fun c => Js.str (String.mk [c]))).getD .undefined)
  | _, _ => .ok .undefined

/-- JS strict equality `v === "lit"` against a string literal. -/
def Js.strictEqStr : Js → String → Bool
  | .str s, t => s == t
  | _, _ => false

/-- JS truthiness of a value (`if (!codeId) ...`).  The `Int` model of JS
numbers has no NaN; NaN would also be falsy. -/
def Js.truthy : Js → Bool
  | .undefined => false
  | .null => false
  | .bool b => b
  | .num n => !(n == 0)
  | .str s => !(s == "")
  | .arr _ => true
  | .obj _ => true

/-- JS nullish test, the condition under which `lhs ?? rhs` evaluates `rhs`. -/
def Js.isNullish : Js → Bool
  | .undefined => true
  | .null => true
  | _ => false

/-- `Array.prototype.find` over the element list: first element on which the
predicate returns true, `undefined` when none, propagating errors thrown
inside the callback. -/
def jsFindList (p : Js → Except JsErr Bool) : List Js → Except JsErr Js
  | [] => .ok .undefined
  | x :: xs =>
    match p x with
    | .error e => .error e
    | .ok true => .ok x
    | .ok false => jsFindList p xs

/-- JS method call `v.find(p)`: a TypeError unless `v` is an array (in
particular on `undefined`, as for a missing `events`/`attributes` field). -/
def Js.jsFind (v : Js) (p : Js → Except JsErr Bool) : Except JsErr Js :=
  match v with
  | .undefined => .error (.typeError "Cannot read properties of undefined (reading find)")
  | .null => .error (.typeError "Cannot read properties of null (reading find)")
  | .arr xs => jsFindList p xs
  | _ => .error (.typeError "find is not a function")

mutual
/-- JS string coercion `String(v)`, used by `parseInt`. -/
def Js.coerceToString : Js → String
  | .undefined => "undefined"
  | .null => "null"
  | .bool b => cond b "true" "false"
  | .num n => toString n
  | .str s => s
  | .obj _ => "[object Object]"
  | .arr xs => Js.coerceListToString xs

/-- JS array string coercion: elements joined by commas. -/
def Js.coerceListToString : List Js → String
  | [] => ""
  | [x] => Js.coerceToString x
  | x :: y :: xs => Js.coerceToString x ++ "," ++ Js.coerceListToString (y :: xs)
end

/-- Leading decimal digits of a character list. -/
def takeDigits (cs : List Char) : List Char := cs.takeWhile Char.isDigit

/-- Numeric value of a list of decimal digits. -/
def digitsToNat (ds : List Char) : Nat := ds.foldl (fun acc c => acc * 10 + (c.toNat - 48)) 0

/-- Model of the JS builtin `parseInt(s, 10)`: skip leading whitespace, take an
optional sign and then the leading digits; `none` models NaN. -/
def jsParseInt (s : String) : Option Int :=
  let cs := s.toList.dropWhile (fun c => c == ' ' || c == '\t' || c == '\n' || c == '\r')
  match cs with
  | '-' :: rest =>
    let ds := takeDigits rest
    if ds.isEmpty then none else some (-(Int.ofNat (digitsToNat ds)))
  | '+' :: rest =>
    let ds := takeDigits rest
    if ds.isEmpty then none else some (Int.ofNat (digitsToNat ds))
  | _ =>
    let ds := takeDigits cs
    if ds.isEmpty then none else some (Int.ofNat (digitsToNat ds))

/-- A raw transaction log string together with the outcome of the JS builtin
`JSON.parse` on it (`JSON.parse` is part of the JS runtime, external to the
repository): `.error m` models a thrown `SyntaxError` with message `m`,
`.ok v` models the parsed value. -/
structure RawLog where
  text : String
  parsed : Except String Js

/-- Model of `JSON.parse(r.text)`. -/
def RawLog.jsonParse (r : RawLog) : Except JsErr Js :=
  match r.parsed with
  | .error m => .error (.syntaxError m)
  | .ok v => .ok v

/-- The included transaction as returned by the block-inclusion waiter; the
deployer only reads its `raw_log`. -/
structure TxInfo where
  raw_log : RawLog

/-- Result of `lcd.tx.broadcastSync`: `code = some c` models a response object
carrying a `code` key (the source tests membership with `"code" in result`),
`none` a response without one. -/
structure BroadcastResult where
  code : Option Int
  raw_log : String
  txhash : String

/-- The runtime value bound to an `Ora | undefined` parameter. -/
inductive SpinnerVal where
  | undefined
  | spinner

/-- JS default-parameter binding for `spinner: Ora | undefined = ora(...)`:
the default fires whenever the incoming argument is `undefined`, whether the
argument was omitted or passed explicitly. -/
def resolveSpinner : SpinnerVal → SpinnerVal
  | .undefined => .spinner
  | .spinner => .spinner

/-- The unguarded call `spinner.succeed(...)` (no optional chaining): throws a
TypeError when the binding is `undefined`, otherwise succeeds. -/
def spinnerSucceedUnguarded : SpinnerVal → Except JsErr Unit
  | .undefined => .error (.typeError "Cannot read properties of undefined (reading succeed)")
  | .spinner => .ok ()

/-- The unguarded call `spinner.fail(...)`: throws a TypeError when the
binding is `undefined`, otherwise succeeds. -/
def spinnerFailUnguarded : SpinnerVal → Except JsErr Unit
  | .undefined => .error (.typeError "Cannot read properties of undefined (reading fail)")
  | .spinner => .ok ()

/-- A ledger message as constructed by the deployer. -/
inductive Msg where
  | storeCode (sender : String) (wasmByteCode : String)
  | migrateCode (sender : String) (codeId : Int) (wasmByteCode : String)
  | instantiateContract (sender : String) (admin : Option String) (codeId : Option Int)
      (initMsg : Js) (coins : Option Js) (label : String)

/-- One `createAndSignTx` call: its messages, the sequence passed (if any) and
the fee denominations set on the options (if any). -/
structure SignedTx where
  msgs : List Msg
  sequence : Option Int
  feeDenoms : Option (List String)

/-- The ledger-client interactions performed during one deployer call. -/
structure CallTrace where
  signedTxs : List SignedTx
  broadcasts : Nat
  waiterCalls : List String
  sequenceQueries : Nat

/-- The trace of a call that touched no ledger-client method. -/
def emptyTrace : CallTrace := ⟨[], 0, [], 0⟩

/-- Build information of a contract in the config file. -/
structure ContractBuildInfo where
  src : String

/-- The `refs` section of the config file. -/
structure RefsConfig where
  base_path : String
  copy_refs_to : List String

/-- The parts of `Config` that `Deployer` reads. -/
structure Config where
  contracts : List (String × ContractBuildInfo)
  refsCfg : RefsConfig

/-- Modelled from the spec: one record of the Reference Store (`src/refs.ts`
is not among the analysed sources) — the code id and address recorded for one
(network, contract) pair; the values stored are whatever JS values the
deployer passes in. -/
structure RefRecord where
  codeId : Js
  address : Js

/-- The record of a (network, contract) pair nothing was recorded for. -/
def emptyRefRecord : RefRecord := ⟨.undefined, .undefined⟩

/-- Modelled from the spec: the in-memory Reference Store snapshot, a mapping
from (network, contract) to its record. -/
structure Refs where
  entries : List ((String × String) × RefRecord)

/-- Record stored for a (network, contract) pair, empty when absent. -/
def Refs.lookupRec (r : Refs) (nw c : String) : RefRecord :=
  (r.entries.lookup (nw, c)).getD emptyRefRecord

/-- Modelled from the spec: `getCodeId(network, contract)`, `undefined` when
no code id was recorded. -/
def Refs.getCodeId (r : Refs) (nw c : String) : Js := (r.lookupRec nw c).codeId

/-- Modelled from the spec: `getAddress(network, contract)`. -/
def Refs.getAddress (r : Refs) (nw c : String) : Js := (r.lookupRec nw c).address

/-- Modelled from the spec: `setCodeId` overwrites the code id recorded for
the pair, keeping its address. -/
def Refs.setCodeId (r : Refs) (nw c : String) (v : Js) : Refs :=
  ⟨((nw, c), ⟨v, (r.lookupRec nw c).address⟩) :: r.entries.filter (fun e => !(e.1 == (nw, c)))⟩

/-- Modelled from the spec: `setAddress` overwrites the address recorded for
the pair, keeping its code id. -/
def Refs.setAddress (r : Refs) (nw c : String) (v : Js) : Refs :=
  ⟨((nw, c), ⟨(r.lookupRec nw c).codeId, v⟩) :: r.entries.filter (fun e => !(e.1 == (nw, c)))⟩

/-- The persisted reference files: a mapping from path to the snapshot last
serialized there. -/
abbrev Disk := List (String × Refs)

/-- Serialize a snapshot at one path. -/
def Disk.write (d : Disk) (p : String) (r : Refs) : Disk :=
  (p, r) :: d.filter (fun e => !(e.1 == p))

/-- Reload the snapshot serialized at a path. -/
def Disk.load (d : Disk) (p : String) : Option Refs := d.lookup p

/-- Modelled from the spec: `saveRefs(basePath, copyTargets)` serializes the
full snapshot to the primary path and mirrors identical copies to each
secondary path. -/
def saveRefs (r : Refs) (basePath : String) (copyTo : List String) (d : Disk) : Disk :=
  (basePath :: copyTo).foldl (fun acc p => Disk.write acc p r) d

/-- The mutable state a deployer call can modify: the in-memory reference
snapshot and the persisted reference files. -/
structure World where
  refs : Refs
  disk : Disk

/-- The external environment of one deployer call: the working directory and
host architecture, the artifact files (path to contents, contents represented
by their base64 encoding as produced by `readFileSync(...).toString("base64")`),
the signer's address and current on-chain sequence, and the responses of the
ledger client for this call (`broadcastSync` and the block-inclusion waiter of
`src/utils.ts`, which is not among the analysed sources and is kept as a
black box returning either an included transaction, `undefined`, or a thrown
error). -/
structure Env where
  cwd : String
  arm64 : Bool
  files : List (String × String)
  accAddress : String
  signerSequence : Int
  broadcastResult : BroadcastResult
  waitResult : Except JsErr (Option TxInfo)

/-- The deployer's constructor fields that the two operations read (the signer
and refs are modelled by `Env` and `World`). -/
structure Deployer where
  network : String
  config : Config

/-- `options` of `instantiate`. -/
structure InstantiateContractOptions where
  sequence : Option Int
  admin : Option String
  coins : Option Js
  label : Option String

/-- Return value of a successful `instantiate`. -/
structure InstantiateReturn where
  address : Js
  raw_log : String

/-- `path.join` of two segments (the source always joins non-empty relative
segments onto an absolute prefix). -/
def pathJoin (a b : String) : String := a ++ "/" ++ b

/-- `contract.replace(dash-regex-global, "_")`: every dash becomes an underscore. -/
def dashToUnderscore (s : String) : String :=
  String.mk (s.toList.map (fun c => if c == '-' then '_' else c))

/-- The artifact file name: dashes replaced, `-arm64` suffix on arm64 hosts,
`.wasm` extension. -/
def wasmFileName (contract : String) (arm64 : Bool) : String :=
  dashToUnderscore contract ++ (if arm64 then "-arm64" else "") ++ ".wasm"

/-- The artifact path `path.join(contractFolder, "artifacts", file)` with
`contractFolder = path.join(process.cwd(), buildInfo.src)`. -/
def wasmArtifactPath (env : Env) (buildInfo : ContractBuildInfo) (contract : String) : String :=
  pathJoin (pathJoin (pathJoin env.cwd buildInfo.src) "artifacts") (wasmFileName contract env.arm64)

/-- The single message of the store-code transaction:
`migrateCodeId ? new MsgMigrateCode(...) : new MsgStoreCode(...)` — the
conditional tests JS truthiness, so a supplied `0` selects the store branch. -/
def storeCodeMsg (sender : String) (migrateCodeId : Option Int) (wasmByteCode : String) : Msg :=
  match migrateCodeId with
  | some c => if c == 0 then .storeCode sender wasmByteCode else .migrateCode sender c wasmByteCode
  | none => .storeCode sender wasmByteCode

/-- Predicate of `events.find((event) => event.type === ty)`. -/
def eventTypePred (ty : String) (ev : Js) : Except JsErr Bool :=
  match ev.getProp "type" with
  | .error e => .error e
  | .ok t => .ok (t.strictEqStr ty)

/-- Predicate of `attributes.find((attr) => attr.key === k)`. -/
def attrKeyPred (k : String) (a : Js) : Except JsErr Bool :=
  match a.getProp "key" with
  | .error e => .error e
  | .ok kk => .ok (kk.strictEqStr k)

/-- `JSON.parse((res && res.raw_log) || "")` of `storeCode`: an absent result
or an empty log text falls back to parsing `""`, which throws a SyntaxError. -/
def storeCodeParseLog : Option TxInfo → Except JsErr Js
  | none => .error (.syntaxError "Unexpected end of JSON input")
  | some ti =>
    if ti.raw_log.text == "" then .error (.syntaxError "Unexpected end of JSON input")
    else ti.raw_log.jsonParse

/-- The code-id extraction expression of `storeCode`:
`JSON.parse(...)[0].events.find(type === "store_code").attributes.find(key === "code_id").value`. -/
def storeCodeExtract (res : Option TxInfo) : Except JsErr Js :=
  match storeCodeParseLog res with
  | .error e => .error e
  | .ok parsed =>
    match parsed.index 0 with
    | .error e => .error e
    | .ok entry0 =>
      match entry0.getProp "events" with
      | .error e => .error e
      | .ok events =>
        match events.jsFind (eventTypePred "store_code") with
        | .error e => .error e
        | .ok ev =>
          match ev.getProp "attributes" with
          | .error e => .error e
          | .ok attrs =>
            match attrs.jsFind (attrKeyPred "code_id") with
            | .error e => .error e
            | .ok attr => attr.getProp "value"

/-- The body of the `try` block of `storeCode`: extract the code id, run the
unguarded `spinner.succeed`, record the code id via `setCodeId` and persist
via `saveRefs`. -/
def storeCodeTryBody (d : Deployer) (w : World) (contract : String) (spinner : SpinnerVal)
    (res : Option TxInfo) : Except JsErr (Js × World) :=
  match storeCodeExtract res with
  | .error e => .error e
  | .ok savedCodeId =>
    match spinnerSucceedUnguarded spinner with
    | .error e => .error e
    | .ok _ =>
      let refs1 := w.refs.setCodeId d.network contract savedCodeId
      let disk1 := saveRefs refs1 d.config.refsCfg.base_path d.config.refsCfg.copy_refs_to w.disk
      .ok (savedCodeId, ⟨refs1, disk1⟩)

/-- The `catch` block of `storeCode`: the unguarded `spinner.fail` (whose own
TypeError would replace the caught error), then a SyntaxError is rewrapped
with its message while any other error is rendered as `Unexpcted Error`. -/
def storeCodeCatch (contract : String) (spinner : SpinnerVal) (e : JsErr) : Except JsErr Js :=
  match spinnerFailUnguarded spinner with
  | .error e2 => .error e2
  | .ok _ =>
    match e with
    | .syntaxError m => .error (.error ("Error parsing raw_log from store_code transaction: " ++ m))
    | _ => .error (.error ("Unexpcted Error: " ++ jsErrDisplay e))

/-- `storeCode` after a broadcast without a `code` key: awaiting the waiter,
then the `try`/`catch` around extraction and persistence. -/
def storeCodeCore (d : Deployer) (w : World) (contract : String) (spinner : SpinnerVal)
    (wr : Except JsErr (Option TxInfo)) : Except JsErr Js × World :=
  match wr with
  | .error e => (.error e, w)
  | .ok res =>
    match storeCodeTryBody d w contract spinner res with
    | .ok vw => (.ok vw.1, vw.2)
    | .error e => (storeCodeCatch contract spinner e, w)

/-- `Deployer.storeCode(contract, migrateCodeId?, spinner?)`, returning the JS
result (`Except`), the final mutable state and the ledger-client trace. -/
def Deployer.storeCode (d : Deployer) (env : Env) (w : World) (contract : String)
    (migrateCodeId : Option Int) (spinnerArg : SpinnerVal) :
    Except JsErr Js × World × CallTrace :=
  match d.config.contracts.lookup contract with
  | none =>
    (.error (.error ("Contract " ++ contract ++ " build information not found in config file.")),
     w, emptyTrace)
  | some buildInfo =>
    let wasm := wasmArtifactPath env buildInfo contract
    match env.files.lookup wasm with
    | none =>
      (.error (.error ("WASM file \"" ++ wasm ++ "\" not found in artifacts folder")), w, emptyTrace)
    | some wasmByteCode =>
      let msg := storeCodeMsg env.accAddress migrateCodeId wasmByteCode
      if (env.broadcastResult.code).isSome then
        (.error (.error ("Error storing wasm file for " ++ contract ++ ":\n"
            ++ env.broadcastResult.raw_log)),
         w, ⟨[⟨[msg], none, none⟩], 1, [], 0⟩)
      else
        let body := storeCodeCore d w contract (resolveSpinner spinnerArg) env.waitResult
        (body.1, body.2, ⟨[⟨[msg], none, none⟩], 1, [env.broadcastResult.txhash], 0⟩)

/-- `options?.sequence || (await this.signer.sequence())`: the override is
used only when truthy (so a supplied `0` still queries the signer); the Bool
records whether the signer was queried. -/
def resolveSequence (optSeq : Option Int) (signerSeq : Int) : Int × Bool :=
  match optSeq with
  | some s => if s == 0 then (signerSeq, true) else (s, false)
  | none => (signerSeq, true)

/-- `options?.label || "Instantiate"`. -/
def labelOrDefault : Option String → String
  | some s => if s == "" then "Instantiate" else s
  | none => "Instantiate"

/-- `JSON.parse(res!.raw_log)` of `instantiate`: reading `raw_log` off an
absent result throws a TypeError; otherwise the parse outcome. -/
def instantiateParseLog : Option TxInfo → Except JsErr Js
  | none => .error (.typeError "Cannot read properties of undefined (reading raw_log)")
  | some ti => ti.raw_log.jsonParse

/-- The `catch` around that parse: a SyntaxError with a present result is
rewrapped carrying the raw log text verbatim, anything else becomes
`Unexpcted Error`. -/
def instantiateParseCatch (contract : String) (res : Option TxInfo) (e : JsErr) : JsErr :=
  match e, res with
  | .syntaxError _, some ti =>
    .error ("Error instantiating " ++ contract ++ ":\n" ++ ti.raw_log.text)
  | _, _ => .error ("Unexpcted Error: " ++ jsErrDisplay e)

/-- The address extraction of `instantiate`:
`log[0].events.find(type === "instantiate_contract") ?? log[0].events.find(type === "instantiate")`,
then `.attributes.find(key === "_contract_address").value`; this code runs
outside any `try`, so its TypeErrors propagate to the caller unwrapped. -/
def instantiateExtract (log : Js) : Except JsErr Js :=
  match log.index 0 with
  | .error e => .error e
  | .ok entry0 =>
    match entry0.getProp "events" with
    | .error e => .error e
    | .ok events =>
      match events.jsFind (eventTypePred "instantiate_contract") with
      | .error e => .error e
      | .ok e1 =>
        match (if e1.isNullish then events.jsFind (eventTypePred "instantiate") else .ok e1) with
        | .error e => .error e
        | .ok event =>
          match event.getProp "attributes" with
          | .error e => .error e
          | .ok attrs =>
            match attrs.jsFind (attrKeyPred "_contract_address") with
            | .error e => .error e
            | .ok attr => attr.getProp "value"

/-- `res!.raw_log` at the return site of `instantiate` (a present result is
guaranteed there since the parse already succeeded). -/
def rawLogTextOf : Option TxInfo → String
  | some ti => ti.raw_log.text
  | none => ""

/-- `instantiate` after signing and broadcast: awaiting the waiter, the
guarded parse, the unguarded address extraction, then `setAddress` and
`saveRefs`. -/
def instantiateCore (d : Deployer) (w : World) (contract : String)
    (wr : Except JsErr (Option TxInfo)) : Except JsErr InstantiateReturn × World :=
  match wr with
  | .error e => (.error e, w)
  | .ok res =>
    match instantiateParseLog res with
    | .error e => (.error (instantiateParseCatch contract res e), w)
    | .ok log =>
      match instantiateExtract log with
      | .error e => (.error e, w)
      | .ok contractAddress =>
        let refs1 := w.refs.setAddress d.network contract contractAddress
        let disk1 := saveRefs refs1 d.config.refsCfg.base_path d.config.refsCfg.copy_refs_to w.disk
        (.ok ⟨contractAddress, rawLogTextOf res⟩, ⟨refs1, disk1⟩)

/-- `Deployer.instantiate(contract, msg, options?, spinner?)`: fails up front
when no truthy code id is recorded, otherwise resolves the sequence, signs one
instantiate message (default fee denomination `uluna`, default label
`Instantiate`), broadcasts without inspecting the response, waits for
inclusion and extracts/persists the contract address. -/
def Deployer.instantiate (d : Deployer) (env : Env) (w : World) (contract : String)
    (initMsg : Js) (options : Option InstantiateContractOptions) (spinnerArg : SpinnerVal) :
    Except JsErr InstantiateReturn × World × CallTrace :=
  let codeId := w.refs.getCodeId d.network contract
  if codeId.truthy then
    let seqq := resolveSequence (options.bind (fun o => o.sequence)) env.signerSequence
    let instMsg : Msg := .instantiateContract env.accAddress (options.bind (fun o => o.admin))
        (jsParseInt (Js.coerceToString codeId)) initMsg (options.bind (fun o => o.coins))
        (labelOrDefault (options.bind (fun o => o.label)))
    let core := instantiateCore d w contract env.waitResult
    (core.1, core.2,
     ⟨[⟨[instMsg], some seqq.1, some ["uluna"]⟩], 1, [env.broadcastResult.txhash],
      cond seqq.2 1 0⟩)
  else
    (.error (.error ("Contract " ++ contract ++ " code id not found in refs.")), w, emptyTrace)

/-- A log attribute as the spec describes it: a (key, value) pair. -/
structure SAttr where
  key : String
  value : String

/-- A ledger event: a type and an ordered attribute list. -/
structure SEvent where
  type : String
  attributes : List SAttr

/-- One entry of the raw log (one per message of the transaction). -/
structure SEntry where
  events : List SEvent

/-- The JSON value of an attribute. -/
def SAttr.toJs (a : SAttr) : Js := .obj [("key", .str a.key), ("value", .str a.value)]

/-- The JSON value of an event. -/
def SEvent.toJs (e : SEvent) : Js :=
  .obj [("type", .str e.type), ("attributes", .arr (e.attributes.map SAttr.toJs))]

/-- The JSON value of a log entry. -/
def SEntry.toJs (en : SEntry) : Js := .obj [("events", .arr (en.events.map SEvent.toJs))]

/-- The JSON value of a structured raw log. -/
def logToJs (l : List SEntry) : Js := .arr (l.map SEntry.toJs)

/-- The event of the given type in an entry (first match). -/
def findEventS (en : SEntry) (ty : String) : Option SEvent :=
  en.events.find? (fun e => e.type == ty)

/-- The attribute with the given key in an event (first match). -/
def findAttrS (e : SEvent) (k : String) : Option SAttr :=
  e.attributes.find? (fun a => a.key == k)

/-- The event `instantiate` looks up: type `instantiate_contract` when present
(the primary wins), else type `instantiate`. -/
def instEventS (en : SEntry) : Option SEvent :=
  match findEventS en "instantiate_contract" with
  | some e => some e
  | none => findEventS en "instantiate"

/-- The JS value `Array.prototype.find` yields for an optional event. -/
def optEventJs : Option SEvent → Js
  | some e => e.toJs
  | none => .undefined

/-- The JS value `Array.prototype.find` yields for an optional attribute. -/
def optAttrJs : Option SAttr → Js
  | some a => a.toJs
  | none => .undefined

/-- Whether the second character list starts with the first. -/
def charsStartWith : List Char → List Char → Bool
  | [], _ => true
  | _ :: _, [] => false
  | c :: cs, d :: ds => c == d && charsStartWith cs ds

/-- Whether the first character list occurs contiguously inside the second. -/
def charsContain (needle : List Char) : List Char → Bool
  | [] => charsStartWith needle []
  | d :: ds => charsStartWith needle (d :: ds) || charsContain needle ds

/-- Whether `needle` occurs verbatim inside `hay`. -/
def strContains (hay needle : String) : Bool := charsContain needle.toList hay.toList

/-- Test fixture: build info of the `vault` contract. -/
def buildInfoX : ContractBuildInfo := ⟨"contracts/vault"⟩

/-- Test fixture: a config knowing the `vault` contract and two ref paths. -/
def cfgX : Config := ⟨[("vault", buildInfoX)], ⟨"refs.json", ["copy/refs.json"]⟩⟩

/-- Test fixture: a deployer on network `testnet`. -/
def deployerX : Deployer := ⟨"testnet", cfgX⟩

/-- Test fixture: the artifact path derived for `vault` on a non-arm64 host
with cwd `/w`. -/
def wasmPathX : String := "/w/contracts/vault/artifacts/vault.wasm"

/-- Test fixture: the artifact file present with base64 contents. -/
def filesX : List (String × String) := [(wasmPathX, "V0FTTUJMT0I=")]

/-- Test fixture: a log entry carrying a `store_code` event with `code_id` 42. -/
def storeEntryX : SEntry := ⟨[⟨"store_code", [⟨"code_id", "42"⟩]⟩]⟩

/-- Test fixture: the included store-code transaction with its raw log. -/
def tiStoreX : TxInfo :=
  ⟨⟨"[\x7b\"events\":[\x7b\"type\":\"store_code\",\"attributes\":[\x7b\"key\":\"code_id\",\"value\":\"42\"\x7d]\x7d]\x7d]",
    .ok (logToJs [storeEntryX])⟩⟩

/-- Test fixture: an environment in which `storeCode` fully succeeds. -/
def envStoreX : Env :=
  ⟨"/w", false, filesX, "terra1sender", 7, ⟨none, "ok", "TX1"⟩, .ok (some tiStoreX)⟩

/-- Test fixture: empty reference store, empty disk. -/
def worldEmptyX : World := ⟨⟨[]⟩, []⟩

/-- Test fixture: a log entry carrying only the fallback `instantiate` event. -/
def instEntryX : SEntry := ⟨[⟨"instantiate", [⟨"_contract_address", "terra1abc"⟩]⟩]⟩

/-- Test fixture: the included instantiate transaction with its raw log. -/
def tiInstX : TxInfo :=
  ⟨⟨"[\x7b\"events\":[\x7b\"type\":\"instantiate\",\"attributes\":[\x7b\"key\":\"_contract_address\",\"value\":\"terra1abc\"\x7d]\x7d]\x7d]",
    .ok (logToJs [instEntryX])⟩⟩

/-- Test fixture: a reference store with code id `42` recorded for
(`testnet`, `vault`). -/
def refsVaultX : Refs := ⟨[(("testnet", "vault"), ⟨.str "42", .undefined⟩)]⟩

/-- Test fixture: world holding `refsVaultX`, empty disk. -/
def worldInstX : World := ⟨refsVaultX, []⟩

/-- Test fixture: an environment in which `instantiate` fully succeeds. -/
def envInstX : Env :=
  ⟨"/w", false, filesX, "terra1sender", 7, ⟨none, "ok", "TX2"⟩, .ok (some tiInstX)⟩

/-- Test fixture: a well-formed raw log whose only entry has no events. -/
def tiNoEventX : TxInfo := ⟨⟨"[\x7b\"events\":[]\x7d]", .ok (logToJs [⟨[]⟩])⟩⟩

/-- Test fixture: environment whose included transaction has an eventless log. -/
def envNoEventX : Env :=
  ⟨"/w", false, filesX, "terra1sender", 7, ⟨none, "ok", "TX2"⟩, .ok (some tiNoEventX)⟩

/-- Test fixture: a raw log that is not JSON (a plain ledger error text). -/
def rawFailTextX : String := "failed to execute message; message index: 0: insufficient funds"

/-- Test fixture: the included transaction whose raw log fails to parse, with
the SyntaxError message the JS runtime produces for it. -/
def tiBadX : TxInfo := ⟨⟨rawFailTextX, .error "Unexpected token a in JSON at position 1"⟩⟩

/-- Test fixture: environment whose included transaction has the unparsable
raw log. -/
def envBadX : Env :=
  ⟨"/w", false, filesX, "terra1sender", 7, ⟨none, "ok", "TX1"⟩, .ok (some tiBadX)⟩

/-- Test fixture: the instantiate environment whose included transaction has
the unparsable raw log. -/
def envInstBadX : Env :=
  ⟨"/w", false, filesX, "terra1sender", 7, ⟨none, "ok", "TX2"⟩, .ok (some tiBadX)⟩

/-- Test fixture: environment whose broadcast response carries error code 11. -/
def envRejectX : Env :=
  ⟨"/w", false, filesX, "terra1sender", 7, ⟨some 11, "out of gas", "TX3"⟩, .ok none⟩

/-- Test fixture: the instantiate environment with a broadcast response
carrying error code 5. -/
def envInstRejX : Env :=
  ⟨"/w", false, filesX, "terra1sender", 7, ⟨some 5, "rejected at submit", "TX2"⟩, .ok (some tiInstX)⟩

/-- Test fixture: instantiate options supplying the manual sequence 0. -/
def optsSeqZeroX : InstantiateContractOptions := ⟨some 0, none, none, none⟩

/-- Test fixture: instantiate options supplying the manual sequence 12. -/
def optsSeqTwelveX : InstantiateContractOptions := ⟨some 12, none, none, none⟩

theorem resolveSpinner_eq (s : SpinnerVal) : resolveSpinner s = SpinnerVal.spinner := by
  cases s <;> rfl

theorem jsFindList_eventType (ty : String) (evs : List SEvent) :
    jsFindList (eventTypePred ty) (evs.map SEvent.toJs)
      = Except.ok (optEventJs (evs.find? (fun e => e.type == ty))) := by
  induction evs with
  | nil => rfl
  | cons e rest ih =>
    cases h : e.type == ty
    · simp [jsFindList, eventTypePred, SEvent.toJs, Js.getProp, Js.strictEqStr, List.find?, h, ih,
        optEventJs]
    · simp [jsFindList, eventTypePred, SEvent.toJs, Js.getProp, Js.strictEqStr, List.find?, h,
        optEventJs]

theorem jsFindList_attrKey (k : String) (ats : List SAttr) :
    jsFindList (attrKeyPred k) (ats.map SAttr.toJs)
      = Except.ok (optAttrJs (ats.find? (fun a => a.key == k))) := by
  induction ats with
  | nil => rfl
  | cons a rest ih =>
    cases h : a.key == k
    · simp [jsFindList, attrKeyPred, SAttr.toJs, Js.getProp, Js.strictEqStr, List.find?, h, ih,
        optAttrJs]
    · simp [jsFindList, attrKeyPred, SAttr.toJs, Js.getProp, Js.strictEqStr, List.find?, h,
        optAttrJs]

theorem storeCodeExtract_shaped (ti : TxInfo) (entry : SEntry) (rest : List SEntry)
    (ev : SEvent) (a : SAttr)
    (htxt : (ti.raw_log.text == "") = false)
    (hparsed : ti.raw_log.parsed = .ok (logToJs (entry :: rest)))
    (hev : findEventS entry "store_code" = some ev)
    (ha : findAttrS ev "code_id" = some a) :
    storeCodeExtract (some ti) = .ok (.str a.value) := by
  have h1 : storeCodeParseLog (some ti) = .ok (logToJs (entry :: rest)) := by
    simp [storeCodeParseLog, htxt, RawLog.jsonParse, hparsed]
  unfold findEventS at hev
  unfold findAttrS at ha
  simp [storeCodeExtract, h1, logToJs, Js.index, SEntry.toJs, Js.getProp, Js.jsFind,
    jsFindList_eventType, hev, optEventJs, SEvent.toJs, jsFindList_attrKey, ha, optAttrJs,
    SAttr.toJs, List.lookup,
    show (("attributes" : String) == "type") = false from rfl,
    show (("value" : String) == "key") = false from rfl]

theorem instantiateExtract_shaped (entry : SEntry) (rest : List SEntry) (ev : SEvent) (a : SAttr)
    (hev : instEventS entry = some ev)
    (ha : findAttrS ev "_contract_address" = some a) :
    instantiateExtract (logToJs (entry :: rest)) = .ok (.str a.value) := by
  unfold findAttrS at ha
  unfold instEventS findEventS at hev
  cases hp : entry.events.find? (fun e => e.type == "instantiate_contract") with
  | some e0 =>
    rw [hp] at hev
    injection hev with h0
    subst h0
    simp [instantiateExtract, logToJs, Js.index, SEntry.toJs, Js.getProp, Js.jsFind,
      jsFindList_eventType, hp, optEventJs, Js.isNullish, SEvent.toJs, jsFindList_attrKey, ha,
      optAttrJs, SAttr.toJs, List.lookup,
      show (("attributes" : String) == "type") = false from rfl,
      show (("value" : String) == "key") = false from rfl]
  | none =>
    rw [hp] at hev
    have hev2 : entry.events.find? (fun e => e.type == "instantiate") = some ev := hev
    simp [instantiateExtract, logToJs, Js.index, SEntry.toJs, Js.getProp, Js.jsFind,
      jsFindList_eventType, hp, optEventJs, Js.isNullish, hev2, SEvent.toJs, jsFindList_attrKey, ha,
      optAttrJs, SAttr.toJs, List.lookup,
      show (("attributes" : String) == "type") = false from rfl,
      show (("value" : String) == "key") = false from rfl]

theorem Refs.getCodeId_setCodeId (r : Refs) (nw c : String) (v : Js) :
    (r.setCodeId nw c v).getCodeId nw c = v := by
  simp [Refs.getCodeId, Refs.lookupRec, Refs.setCodeId, List.lookup]

theorem Refs.getAddress_setAddress (r : Refs) (nw c : String) (v : Js) :
    (r.setAddress nw c v).getAddress nw c = v := by
  simp [Refs.getAddress, Refs.lookupRec, Refs.setAddress, List.lookup]

theorem lookup_filter_of_ne (d : Disk) (p q : String) (hne : (q == p) = false) :
    ((d.filter (fun e => !(e.1 == p))).lookup q) = d.lookup q := by
  induction d with
  | nil => rfl
  | cons x xs ih =>
    cases hx : x.1 == p with
    | false => simp [List.filter, hx, List.lookup, ih]
    | true =>
      have hx1 : x.1 = p := eq_of_beq hx
      have hq : (q == x.1) = false := by rw [hx1]; exact hne
      simp [List.filter, hx, List.lookup, hq, ih]

theorem disk_load_write_self (d : Disk) (p : String) (r : Refs) :
    Disk.load (Disk.write d p r) p = some r := by
  simp [Disk.load, Disk.write, List.lookup]

theorem disk_load_write_other (d : Disk) (p q : String) (r : Refs) (hne : (q == p) = false) :
    Disk.load (Disk.write d p r) q = Disk.load d q := by
  simp [Disk.load, Disk.write, List.lookup, hne, lookup_filter_of_ne d p q hne]

theorem load_foldl_write (r : Refs) (b : String) :
    ∀ (ps : List String) (d : Disk), Disk.load d b = some r →
      Disk.load (ps.foldl (fun acc p => Disk.write acc p r) d) b = some r := by
  intro ps
  induction ps with
  | nil => intro d h; exact h
  | cons p rest ih =>
    intro d h
    apply ih
    cases hq : b == p with
    | false => rw [disk_load_write_other d p b r hq]; exact h
    | true =>
      have hb : b = p := eq_of_beq hq
      subst hb
      exact disk_load_write_self d b r

theorem load_saveRefs_base (r : Refs) (b : String) (cs : List String) (d : Disk) :
    Disk.load (saveRefs r b cs d) b = some r := by
  unfold saveRefs
  simp only [List.foldl]
  exact load_foldl_write r b cs (Disk.write d b r) (disk_load_write_self d b r)

/-- C1: a successful `storeCode(contract, migrateCodeId?)` returns exactly the
value of the `code_id` attribute of the `store_code` event in the first entry
of the included transaction's raw log; before returning it records that value
via `setCodeId(network, contract, value)` and persists the store via
`saveRefs`, after which `getCodeId` and a reload of the primary path both
give that value. -/
theorem storeCode_success_extracts_records_persists
    (d : Deployer) (env : Env) (w : World) (contract : String)
    (migrateCodeId : Option Int) (sp : SpinnerVal) (bi : ContractBuildInfo) (wbc : String)
    (ti : TxInfo) (entry : SEntry) (rest : List SEntry) (ev : SEvent) (a : SAttr)
    (hcfg : d.config.contracts.lookup contract = some bi)
    (hfile : env.files.lookup (wasmArtifactPath env bi contract) = some wbc)
    (hcode : env.broadcastResult.code = none)
    (hwait : env.waitResult = .ok (some ti))
    (htxt : (ti.raw_log.text == "") = false)
    (hparsed : ti.raw_log.parsed = .ok (logToJs (entry :: rest)))
    (hev : findEventS entry "store_code" = some ev)
    (ha : findAttrS ev "code_id" = some a) :
    (d.storeCode env w contract migrateCodeId sp).1 = .ok (.str a.value)
    ∧ (d.storeCode env w contract migrateCodeId sp).2.1.refs
        = w.refs.setCodeId d.network contract (.str a.value)
    ∧ (d.storeCode env w contract migrateCodeId sp).2.1.refs.getCodeId d.network contract
        = .str a.value
    ∧ (d.storeCode env w contract migrateCodeId sp).2.1.disk
        = saveRefs (w.refs.setCodeId d.network contract (.str a.value))
            d.config.refsCfg.base_path d.config.refsCfg.copy_refs_to w.disk
    ∧ Disk.load (d.storeCode env w contract migrateCodeId sp).2.1.disk
          d.config.refsCfg.base_path
        = some (w.refs.setCodeId d.network contract (.str a.value)) := by
  have hex := storeCodeExtract_shaped ti entry rest ev a htxt hparsed hev ha
  have h1 : (d.storeCode env w contract migrateCodeId sp).1 = .ok (.str a.value) := by
    simp [Deployer.storeCode, hcfg, hfile, hcode, hwait, storeCodeCore, storeCodeTryBody, hex,
      resolveSpinner_eq, spinnerSucceedUnguarded]
  have h21 : (d.storeCode env w contract migrateCodeId sp).2.1
      = ⟨w.refs.setCodeId d.network contract (.str a.value),
         saveRefs (w.refs.setCodeId d.network contract (.str a.value))
           d.config.refsCfg.base_path d.config.refsCfg.copy_refs_to w.disk⟩ := by
    simp [Deployer.storeCode, hcfg, hfile, hcode, hwait, storeCodeCore, storeCodeTryBody, hex,
      resolveSpinner_eq, spinnerSucceedUnguarded]
  refine ⟨h1, ?_, ?_, ?_, ?_⟩
  · rw [h21]
  · rw [h21]
    exact Refs.getCodeId_setCodeId w.refs d.network contract (.str a.value)
  · rw [h21]
  · rw [h21]
    exact load_saveRefs_base _ _ _ _

/-- C1 witness: the success theorem applied to the concrete `vault` scenario
whose log carries code id 42. -/
theorem storeCode_success_witness :
    (deployerX.storeCode envStoreX worldEmptyX "vault" none SpinnerVal.undefined).1
        = .ok (.str "42")
    ∧ (deployerX.storeCode envStoreX worldEmptyX "vault" none SpinnerVal.undefined).2.1.refs
        = worldEmptyX.refs.setCodeId "testnet" "vault" (.str "42")
    ∧ (deployerX.storeCode envStoreX worldEmptyX "vault" none
          SpinnerVal.undefined).2.1.refs.getCodeId "testnet" "vault" = .str "42"
    ∧ (deployerX.storeCode envStoreX worldEmptyX "vault" none SpinnerVal.undefined).2.1.disk
        = saveRefs (worldEmptyX.refs.setCodeId "testnet" "vault" (.str "42")) "refs.json"
            ["copy/refs.json"] worldEmptyX.disk
    ∧ Disk.load (deployerX.storeCode envStoreX worldEmptyX "vault" none
          SpinnerVal.undefined).2.1.disk "refs.json"
        = some (worldEmptyX.refs.setCodeId "testnet" "vault" (.str "42")) :=
  storeCode_success_extracts_records_persists deployerX envStoreX worldEmptyX "vault" none
    SpinnerVal.undefined buildInfoX "V0FTTUJMT0I=" tiStoreX storeEntryX []
    ⟨"store_code", [⟨"code_id", "42"⟩]⟩ ⟨"code_id", "42"⟩ rfl rfl rfl rfl rfl rfl rfl rfl

/-- C2: `instantiate` on a (network, contract) pair with no recorded code id
fails with the configuration error, leaves the world unchanged and touches no
ledger-client method. -/
theorem instantiate_missing_code_id_fails_cleanly
    (d : Deployer) (env : Env) (w : World) (contract : String) (initMsg : Js)
    (options : Option InstantiateContractOptions) (sp : SpinnerVal)
    (habsent : w.refs.getCodeId d.network contract = Js.undefined) :
    d.instantiate env w contract initMsg options sp
      = (.error (.error ("Contract " ++ contract ++ " code id not found in refs.")), w,
         emptyTrace) := by
  simp [Deployer.instantiate, habsent, Js.truthy]

/-- C2 witness: instantiating `vault` against an empty reference store. -/
theorem instantiate_missing_code_id_witness :
    deployerX.instantiate envInstX worldEmptyX "vault" (Js.obj []) none SpinnerVal.undefined
      = (.error (.error ("Contract " ++ "vault" ++ " code id not found in refs.")), worldEmptyX,
         emptyTrace) :=
  instantiate_missing_code_id_fails_cleanly deployerX envInstX worldEmptyX "vault" (Js.obj [])
    none SpinnerVal.undefined rfl

/-- C3: a broadcast response carrying a (non-zero) ledger error code makes
`storeCode` fail at once with an error embedding the response's raw
diagnostic text; the waiter is never called and the world is unchanged. -/
theorem storeCode_broadcast_rejected_fails_immediately
    (d : Deployer) (env : Env) (w : World) (contract : String)
    (migrateCodeId : Option Int) (sp : SpinnerVal) (bi : ContractBuildInfo) (wbc : String)
    (c : Int)
    (hcfg : d.config.contracts.lookup contract = some bi)
    (hfile : env.files.lookup (wasmArtifactPath env bi contract) = some wbc)
    (hcode : env.broadcastResult.code = some c)
    (hc : (c == 0) = false) :
    d.storeCode env w contract migrateCodeId sp
      = (.error (.error ("Error storing wasm file for " ++ contract ++ ":\n"
            ++ env.broadcastResult.raw_log)),
         w, ⟨[⟨[storeCodeMsg env.accAddress migrateCodeId wbc], none, none⟩], 1, [], 0⟩) := by
  simp [Deployer.storeCode, hcfg, hfile, hcode]

/-- C3 witness: broadcast rejected with code 11 and diagnostic `out of gas`. -/
theorem storeCode_broadcast_rejected_witness :
    deployerX.storeCode envRejectX worldEmptyX "vault" none SpinnerVal.spinner
      = (.error (.error ("Error storing wasm file for " ++ "vault" ++ ":\n"
            ++ envRejectX.broadcastResult.raw_log)),
         worldEmptyX,
         ⟨[⟨[storeCodeMsg "terra1sender" none "V0FTTUJMT0I="], none, none⟩], 1, [], 0⟩) :=
  storeCode_broadcast_rejected_fails_immediately deployerX envRejectX worldEmptyX "vault" none
    SpinnerVal.spinner buildInfoX "V0FTTUJMT0I=" 11 rfl rfl rfl rfl

/-- C4: a successful `instantiate` returns the `_contract_address` attribute of
the `instantiate_contract` event of the first log entry when present,
otherwise of the `instantiate` event (the primary wins when both are
present, which is what `instEventS` encodes); the address is recorded via
`setAddress` and persisted before returning. -/
theorem instantiate_success_address_extraction_persists
    (d : Deployer) (env : Env) (w : World) (contract : String) (initMsg : Js)
    (options : Option InstantiateContractOptions) (sp : SpinnerVal)
    (ti : TxInfo) (entry : SEntry) (rest : List SEntry) (ev : SEvent) (a : SAttr)
    (hcid : (w.refs.getCodeId d.network contract).truthy = true)
    (hwait : env.waitResult = .ok (some ti))
    (hparsed : ti.raw_log.parsed = .ok (logToJs (entry :: rest)))
    (hev : instEventS entry = some ev)
    (ha : findAttrS ev "_contract_address" = some a) :
    (d.instantiate env w contract initMsg options sp).1
        = .ok ⟨.str a.value, ti.raw_log.text⟩
    ∧ (d.instantiate env w contract initMsg options sp).2.1.refs
        = w.refs.setAddress d.network contract (.str a.value)
    ∧ (d.instantiate env w contract initMsg options sp).2.1.refs.getAddress d.network contract
        = .str a.value
    ∧ (d.instantiate env w contract initMsg options sp).2.1.disk
        = saveRefs (w.refs.setAddress d.network contract (.str a.value))
            d.config.refsCfg.base_path d.config.refsCfg.copy_refs_to w.disk
    ∧ Disk.load (d.instantiate env w contract initMsg options sp).2.1.disk
          d.config.refsCfg.base_path
        = some (w.refs.setAddress d.network contract (.str a.value)) := by
  have hex := instantiateExtract_shaped entry rest ev a hev ha
  have hparse : instantiateParseLog (some ti) = .ok (logToJs (entry :: rest)) := by
    simp [instantiateParseLog, RawLog.jsonParse, hparsed]
  have h1 : (d.instantiate env w contract initMsg options sp).1
      = .ok ⟨.str a.value, ti.raw_log.text⟩ := by
    simp [Deployer.instantiate, hcid, instantiateCore, hwait, hparse, hex, rawLogTextOf]
  have h21 : (d.instantiate env w contract initMsg options sp).2.1
      = ⟨w.refs.setAddress d.network contract (.str a.value),
         saveRefs (w.refs.setAddress d.network contract (.str a.value))
           d.config.refsCfg.base_path d.config.refsCfg.copy_refs_to w.disk⟩ := by
    simp [Deployer.instantiate, hcid, instantiateCore, hwait, hparse, hex, rawLogTextOf]
  refine ⟨h1, ?_, ?_, ?_, ?_⟩
  · rw [h21]
  · rw [h21]
    exact Refs.getAddress_setAddress w.refs d.network contract (.str a.value)
  · rw [h21]
  · rw [h21]
    exact load_saveRefs_base _ _ _ _

/-- C4 witness: the success theorem applied to the concrete scenario whose log
carries only the fallback `instantiate` event with address `terra1abc`. -/
theorem instantiate_success_witness :
    (deployerX.instantiate envInstX worldInstX "vault" (Js.obj []) none SpinnerVal.undefined).1
        = .ok ⟨.str "terra1abc", tiInstX.raw_log.text⟩
    ∧ (deployerX.instantiate envInstX worldInstX "vault" (Js.obj []) none
          SpinnerVal.undefined).2.1.refs
        = worldInstX.refs.setAddress "testnet" "vault" (.str "terra1abc")
    ∧ (deployerX.instantiate envInstX worldInstX "vault" (Js.obj []) none
          SpinnerVal.undefined).2.1.refs.getAddress "testnet" "vault" = .str "terra1abc"
    ∧ (deployerX.instantiate envInstX worldInstX "vault" (Js.obj []) none
          SpinnerVal.undefined).2.1.disk
        = saveRefs (worldInstX.refs.setAddress "testnet" "vault" (.str "terra1abc")) "refs.json"
            ["copy/refs.json"] worldInstX.disk
    ∧ Disk.load (deployerX.instantiate envInstX worldInstX "vault" (Js.obj []) none
          SpinnerVal.undefined).2.1.disk "refs.json"
        = some (worldInstX.refs.setAddress "testnet" "vault" (.str "terra1abc")) :=
  instantiate_success_address_extraction_persists deployerX envInstX worldInstX "vault"
    (Js.obj []) none SpinnerVal.undefined tiInstX instEntryX []
    ⟨"instantiate", [⟨"_contract_address", "terra1abc"⟩]⟩ ⟨"_contract_address", "terra1abc"⟩
    rfl rfl rfl rfl rfl

/-- C5 counterexample: a well-formed raw log whose first entry simply lacks
the expected event makes `instantiate` fail with a bare TypeError — a generic
type-confusion failure, not a ParseError — refuting the claim that extraction
failures are never surfaced as type-confusion failures. -/
theorem instantiate_missing_event_type_confusion_cex :
    (deployerX.instantiate envNoEventX worldInstX "vault" (Js.obj []) none
        SpinnerVal.spinner).1
      = .error (.typeError "Cannot read properties of undefined (reading attributes)") := rfl

/-- C5 (amended): in `storeCode` the two failure causes are distinguishable —
a malformed raw log (SyntaxError) is rewrapped as a raw_log-parse error while
any other extraction failure (in particular a missing event/attribute, which
surfaces as a TypeError) is rewrapped as `Unexpcted Error`; in `instantiate`
an extraction TypeError propagates to the caller unwrapped.  Missing events
are thus surfaced as generic type-confusion failures, not as a ParseError. -/
theorem parse_failures_distinguishable_amended :
    (∀ (d : Deployer) (env : Env) (w : World) (contract : String)
        (migrateCodeId : Option Int) (sp : SpinnerVal) (bi : ContractBuildInfo) (wbc : String)
        (res : Option TxInfo),
      d.config.contracts.lookup contract = some bi →
      env.files.lookup (wasmArtifactPath env bi contract) = some wbc →
      env.broadcastResult.code = none →
      env.waitResult = .ok res →
      (∀ m, storeCodeExtract res = .error (.syntaxError m) →
        (d.storeCode env w contract migrateCodeId sp).1
          = .error (.error ("Error parsing raw_log from store_code transaction: " ++ m)))
      ∧ (∀ m, storeCodeExtract res = .error (.typeError m) →
        (d.storeCode env w contract migrateCodeId sp).1
          = .error (.error ("Unexpcted Error: " ++ jsErrDisplay (.typeError m)))))
    ∧ (∀ (d : Deployer) (env : Env) (w : World) (contract : String) (initMsg : Js)
        (options : Option InstantiateContractOptions) (sp : SpinnerVal) (ti : TxInfo)
        (log : Js) (m : String),
      (w.refs.getCodeId d.network contract).truthy = true →
      env.waitResult = .ok (some ti) →
      instantiateParseLog (some ti) = .ok log →
      instantiateExtract log = .error (.typeError m) →
      (d.instantiate env w contract initMsg options sp).1 = .error (.typeError m)) := by
  constructor
  · intro d env w contract migrateCodeId sp bi wbc res hcfg hfile hcode hwait
    constructor
    · intro m hm
      simp [Deployer.storeCode, hcfg, hfile, hcode, hwait, storeCodeCore, storeCodeTryBody, hm,
        storeCodeCatch, resolveSpinner_eq, spinnerFailUnguarded]
    · intro m hm
      simp [Deployer.storeCode, hcfg, hfile, hcode, hwait, storeCodeCore, storeCodeTryBody, hm,
        storeCodeCatch, resolveSpinner_eq, spinnerFailUnguarded]
  · intro d env w contract initMsg options sp ti log m hcid hwait hparse hex
    simp [Deployer.instantiate, hcid, instantiateCore, hwait, hparse, hex]

/-- C5 amended witness: the SyntaxError path on the unparsable raw log and the
TypeError path on the eventless raw log, both concrete. -/
theorem parse_failures_distinguishable_witness :
    (deployerX.storeCode envBadX worldEmptyX "vault" none SpinnerVal.spinner).1
      = .error (.error ("Error parsing raw_log from store_code transaction: "
          ++ "Unexpected token a in JSON at position 1"))
    ∧ (deployerX.instantiate envNoEventX worldInstX "vault" (Js.obj []) none SpinnerVal.undefined).1
      = .error (.typeError "Cannot read properties of undefined (reading attributes)") :=
  ⟨(parse_failures_distinguishable_amended.1 deployerX envBadX worldEmptyX "vault" none
      SpinnerVal.spinner buildInfoX "V0FTTUJMT0I=" (some tiBadX) rfl rfl rfl rfl).1
      "Unexpected token a in JSON at position 1" rfl,
   parse_failures_distinguishable_amended.2 deployerX envNoEventX worldInstX "vault" (Js.obj [])
     none SpinnerVal.undefined tiNoEventX (logToJs [⟨[]⟩])
     "Cannot read properties of undefined (reading attributes)" rfl rfl rfl rfl⟩

/-- C6 counterexample: when the raw log of the included store-code transaction
is not JSON, the error `storeCode` raises carries only the SyntaxError's own
message, which does not contain the raw_log text — refuting the claim that
every log-parsing failure preserves the raw_log verbatim. -/
theorem storeCode_parse_error_loses_raw_log_cex :
    (deployerX.storeCode envBadX worldEmptyX "vault" none SpinnerVal.undefined).1
      = .error (.error ("Error parsing raw_log from store_code transaction: "
          ++ "Unexpected token a in JSON at position 1"))
    ∧ strContains ("Error parsing raw_log from store_code transaction: "
          ++ "Unexpected token a in JSON at position 1") rawFailTextX = false :=
  ⟨rfl, rfl⟩

/-- C6 (amended): in `instantiate`, a raw_log JSON-parse failure raises an
error that embeds the raw_log text verbatim; `storeCode`'s corresponding
error contains only the SyntaxError's message instead. -/
theorem instantiate_parse_error_preserves_raw_log_amended
    (d : Deployer) (env : Env) (w : World) (contract : String) (initMsg : Js)
    (options : Option InstantiateContractOptions) (sp : SpinnerVal) (ti : TxInfo) (m : String)
    (hcid : (w.refs.getCodeId d.network contract).truthy = true)
    (hwait : env.waitResult = .ok (some ti))
    (hbad : ti.raw_log.parsed = .error m) :
    (d.instantiate env w contract initMsg options sp).1
      = .error (.error ("Error instantiating " ++ contract ++ ":\n" ++ ti.raw_log.text)) := by
  simp [Deployer.instantiate, hcid, instantiateCore, hwait, instantiateParseLog,
    RawLog.jsonParse, hbad, instantiateParseCatch]

/-- C6 amended witness: instantiating against the unparsable raw log yields an
error carrying the full raw ledger text. -/
theorem instantiate_parse_error_preserves_raw_log_witness :
    (deployerX.instantiate envInstBadX worldInstX "vault" (Js.obj []) none SpinnerVal.undefined).1
      = .error (.error ("Error instantiating " ++ "vault" ++ ":\n" ++ tiBadX.raw_log.text)) :=
  instantiate_parse_error_preserves_raw_log_amended deployerX envInstBadX worldInstX "vault"
    (Js.obj []) none SpinnerVal.undefined tiBadX "Unexpected token a in JSON at position 1"
    rfl rfl rfl

/-- C7 counterexample: supplying `options.sequence = 0` does not sign with 0 —
the `||` fallback treats 0 as absent, the signer is queried (once) and its
sequence 7 is used — refuting the claim for every supplied sequence. -/
theorem sequence_zero_queries_signer_cex :
    (deployerX.instantiate envInstX worldInstX "vault" (Js.obj []) (some optsSeqZeroX)
        SpinnerVal.undefined).2.2.sequenceQueries = 1
    ∧ ((deployerX.instantiate envInstX worldInstX "vault" (Js.obj []) (some optsSeqZeroX)
        SpinnerVal.undefined).2.2.signedTxs.map SignedTx.sequence) = [some 7] :=
  ⟨rfl, rfl⟩

/-- C7 (amended): a supplied non-zero `options.sequence` is used exactly and
the signer is not queried; an absent or zero `options.sequence` makes
`instantiate` query the signer once and sign with the signer's sequence. -/
theorem sequence_resolution_amended
    (d : Deployer) (env : Env) (w : World) (contract : String) (initMsg : Js)
    (options : Option InstantiateContractOptions) (sp : SpinnerVal)
    (hcid : (w.refs.getCodeId d.network contract).truthy = true) :
    (∀ s, options.bind (fun o => o.sequence) = some s → (s == 0) = false →
      (d.instantiate env w contract initMsg options sp).2.2.sequenceQueries = 0
      ∧ ((d.instantiate env w contract initMsg options sp).2.2.signedTxs.map SignedTx.sequence)
          = [some s])
    ∧ (options.bind (fun o => o.sequence) = none →
      (d.instantiate env w contract initMsg options sp).2.2.sequenceQueries = 1
      ∧ ((d.instantiate env w contract initMsg options sp).2.2.signedTxs.map SignedTx.sequence)
          = [some env.signerSequence])
    ∧ (options.bind (fun o => o.sequence) = some 0 →
      (d.instantiate env w contract initMsg options sp).2.2.sequenceQueries = 1
      ∧ ((d.instantiate env w contract initMsg options sp).2.2.signedTxs.map SignedTx.sequence)
          = [some env.signerSequence]) := by
  refine ⟨?_, ?_, ?_⟩
  · intro s hs hnz
    constructor
    · simp [Deployer.instantiate, hcid, resolveSequence, hs, hnz]
    · simp [Deployer.instantiate, hcid, resolveSequence, hs, hnz]
  · intro hs
    constructor
    · simp [Deployer.instantiate, hcid, resolveSequence, hs]
    · simp [Deployer.instantiate, hcid, resolveSequence, hs]
  · intro hs
    constructor
    · simp [Deployer.instantiate, hcid, resolveSequence, hs]
    · simp [Deployer.instantiate, hcid, resolveSequence, hs]

/-- C7 amended witness: a supplied sequence 12 is signed exactly with no
signer query. -/
theorem sequence_resolution_witness :
    (deployerX.instantiate envInstX worldInstX "vault" (Js.obj []) (some optsSeqTwelveX)
        SpinnerVal.undefined).2.2.sequenceQueries = 0
    ∧ ((deployerX.instantiate envInstX worldInstX "vault" (Js.obj []) (some optsSeqTwelveX)
        SpinnerVal.undefined).2.2.signedTxs.map SignedTx.sequence) = [some 12] :=
  (sequence_resolution_amended deployerX envInstX worldInstX "vault" (Js.obj [])
    (some optsSeqTwelveX) SpinnerVal.undefined rfl).1 12 rfl rfl

/-- C8 counterexample: `storeCode` with `migrateCodeId = 0` supplied builds a
store-new-code message, not a migrate-code message carrying 0 — refuting the
claim for every provided `migrateCodeId`. -/
theorem migrate_code_id_zero_stores_new_cex :
    (deployerX.storeCode envStoreX worldEmptyX "vault" (some 0) SpinnerVal.spinner).2.2.signedTxs
      = [⟨[Msg.storeCode "terra1sender" "V0FTTUJMT0I="], none, none⟩] := rfl

/-- C8 (amended): the signed store-code transaction carries exactly one
message holding the base64 bytecode read from the artifact path — a
migrate-code message when `migrateCodeId` is provided and non-zero, a
store-new-code message when it is absent or zero. -/
theorem store_code_message_amended
    (d : Deployer) (env : Env) (w : World) (contract : String)
    (migrateCodeId : Option Int) (sp : SpinnerVal) (bi : ContractBuildInfo) (wbc : String)
    (hcfg : d.config.contracts.lookup contract = some bi)
    (hfile : env.files.lookup (wasmArtifactPath env bi contract) = some wbc) :
    (∀ c, migrateCodeId = some c → (c == 0) = false →
      (d.storeCode env w contract migrateCodeId sp).2.2.signedTxs
        = [⟨[Msg.migrateCode env.accAddress c wbc], none, none⟩])
    ∧ (migrateCodeId = none →
      (d.storeCode env w contract migrateCodeId sp).2.2.signedTxs
        = [⟨[Msg.storeCode env.accAddress wbc], none, none⟩])
    ∧ (migrateCodeId = some 0 →
      (d.storeCode env w contract migrateCodeId sp).2.2.signedTxs
        = [⟨[Msg.storeCode env.accAddress wbc], none, none⟩]) := by
  refine ⟨?_, ?_, ?_⟩
  · intro c hc hnz
    cases hb : (env.broadcastResult.code).isSome <;>
      simp [Deployer.storeCode, hcfg, hfile, hb, storeCodeMsg, hc, hnz]
  · intro hc
    cases hb : (env.broadcastResult.code).isSome <;>
      simp [Deployer.storeCode, hcfg, hfile, hb, storeCodeMsg, hc]
  · intro hc
    cases hb : (env.broadcastResult.code).isSome <;>
      simp [Deployer.storeCode, hcfg, hfile, hb, storeCodeMsg, hc]

/-- C8 amended witness: `migrateCodeId = 3` yields exactly one migrate-code
message carrying 3 and the artifact's base64 bytecode. -/
theorem store_code_message_witness :
    (deployerX.storeCode envStoreX worldEmptyX "vault" (some 3) SpinnerVal.undefined).2.2.signedTxs
      = [⟨[Msg.migrateCode "terra1sender" 3 "V0FTTUJMT0I="], none, none⟩] :=
  (store_code_message_amended deployerX envStoreX worldEmptyX "vault" (some 3) SpinnerVal.undefined
    buildInfoX "V0FTTUJMT0I=" rfl rfl).1 3 rfl rfl

/-- C9: `instantiate` never inspects the broadcast response's error code: with
a non-zero code present it still calls the block-inclusion waiter on the
returned hash, and its entire outcome is unchanged if the code key is
removed from the response. -/
theorem instantiate_ignores_broadcast_code
    (d : Deployer) (env : Env) (w : World) (contract : String) (initMsg : Js)
    (options : Option InstantiateContractOptions) (sp : SpinnerVal) (c : Int)
    (hcid : (w.refs.getCodeId d.network contract).truthy = true)
    (hcode : env.broadcastResult.code = some c)
    (hc : (c == 0) = false) :
    (d.instantiate env w contract initMsg options sp).2.2.waiterCalls
        = [env.broadcastResult.txhash]
    ∧ d.instantiate env w contract initMsg options sp
        = d.instantiate ⟨env.cwd, env.arm64, env.files, env.accAddress, env.signerSequence,
            ⟨none, env.broadcastResult.raw_log, env.broadcastResult.txhash⟩, env.waitResult⟩ w
            contract initMsg options sp := by
  constructor
  · simp [Deployer.instantiate, hcid]
  · simp [Deployer.instantiate, hcid]

/-- C9 witness: broadcast code 5 present, the waiter is still invoked on the
broadcast hash and the outcome matches the code-free response. -/
theorem instantiate_ignores_broadcast_code_witness :
    (deployerX.instantiate envInstRejX worldInstX "vault" (Js.obj []) none
        SpinnerVal.undefined).2.2.waiterCalls = ["TX2"]
    ∧ deployerX.instantiate envInstRejX worldInstX "vault" (Js.obj []) none SpinnerVal.undefined
        = deployerX.instantiate ⟨"/w", false, filesX, "terra1sender", 7,
            ⟨none, "rejected at submit", "TX2"⟩, .ok (some tiInstX)⟩ worldInstX "vault"
            (Js.obj []) none SpinnerVal.undefined :=
  instantiate_ignores_broadcast_code deployerX envInstRejX worldInstX "vault" (Js.obj []) none
    SpinnerVal.undefined 5 rfl rfl rfl

/-- C10 counterexample: `storeCode` called with the spinner argument
explicitly `undefined` does not throw — the fully successful upload succeeds,
returns code id 42 and updates the reference store — refuting the claim that
such a call fails at the unguarded `spinner.succeed`. -/
theorem spinner_undefined_successful_upload_cex :
    (deployerX.storeCode envStoreX worldEmptyX "vault" none SpinnerVal.undefined).1
        = .ok (.str "42")
    ∧ (deployerX.storeCode envStoreX worldEmptyX "vault" none
        SpinnerVal.undefined).2.1.refs.getCodeId "testnet" "vault" = .str "42" :=
  ⟨rfl, rfl⟩

/-- C10 (amended): JS default parameters fire on an explicitly-`undefined`
argument just as on an omitted one, so the spinner binding inside `storeCode`
is never `undefined`: a call with the spinner argument explicitly `undefined`
behaves identically to one with a spinner, and the unguarded
`spinner.succeed` cannot throw. -/
theorem spinner_default_applies_amended
    (d : Deployer) (env : Env) (w : World) (contract : String) (migrateCodeId : Option Int) :
    d.storeCode env w contract migrateCodeId SpinnerVal.undefined
        = d.storeCode env w contract migrateCodeId SpinnerVal.spinner
    ∧ resolveSpinner SpinnerVal.undefined = SpinnerVal.spinner
    ∧ spinnerSucceedUnguarded (resolveSpinner SpinnerVal.undefined) = .ok () :=
  ⟨rfl, rfl, rfl⟩
